import Mathlib

/-!
Shallow embedding of the caching/offline subsystem of the water-filter
marketing site (src/modules/map-manager.js, src/modules/affiliate-optimizer.js,
src/public/sw.js), together with theorems settling the frozen claims about it.

Modelling conventions:
* JS timestamps (`Date.now()`) are `Nat` milliseconds; each call to a
  JS function is modelled at a single instant `now` passed explicitly.
* The JS `Map` used as the in-memory cache and the IndexedDB object store
  are modelled as association lists keyed by `String`, with `lookupKey`
  (`Map.get` / `store.get`) and `upsert` (`Map.set` / `store.put`,
  last write wins).
* Network and storage outcomes that the code observes (fetch success or
  rejection, IndexedDB open/transaction errors, `navigator.onLine`) are
  injected as explicit parameters, so a run of a function is a pure value.
* Opaque JSON payloads are modelled as `String`.
-/

namespace WaterFilter

/-- Opaque JSON payload flowing through the caches and the network. -/
abbrev Payload := String

/-- Association-list read, modelling `Map.get(key)` / IndexedDB `store.get(key)`:
the first pair whose key matches wins. -/
def lookupKey {β : Type} : List (String × β) → String → Option β
  | [], _ => none
  | (k', v') :: rest, k => if k' = k then some v' else lookupKey rest k

/-- Association-list write, modelling `Map.set(key, v)` / IndexedDB `store.put`
(one record per key, last write wins): replace the first binding of the key
in place, or append a new binding. -/
def upsert {β : Type} : List (String × β) → String → β → List (String × β)
  | [], k, v => [(k, v)]
  | (k', v') :: rest, k, v =>
      if k' = k then (k, v) :: rest else (k', v') :: upsert rest k v

/-- Character-list matcher: `needle` occurs at the head of `hay`. -/
def matchesAt : List Char → List Char → Bool
  | [], _ => true
  | _ :: _, [] => false
  | a :: as, b :: bs => a == b && matchesAt as bs

/-- Character-list scan: `needle` occurs somewhere in `hay`. -/
def findSub (needle : List Char) : List Char → Bool
  | [] => matchesAt needle []
  | b :: bs => matchesAt needle (b :: bs) || findSub needle bs

/-- JavaScript `s.includes(pat)`: `pat` is a contiguous substring of `s`. -/
def jsIncludes (s pat : String) : Bool :=
  findSub pat.toList s.toList

/-! ## In-memory TTL cache (DataFetcher.cache, map-manager.js:574-600) -/

/-- One entry of `this.cache`: `{ data, timestamp: Date.now() }`
(map-manager.js:632-635). -/
structure CacheEntry where
  data : Payload
  timestamp : Nat
deriving DecidableEq, Repr

/-- The in-memory cache `this.cache` (`new Map()`), keyed by the cache key. -/
abbrev MemCache := List (String × CacheEntry)

/-- Default `this.cacheDuration`: `5 * 60 * 1000` ms (map-manager.js:575).
The embedding fixes the constructor's default value. -/
def cacheDuration : Nat := 5 * 60 * 1000

/-- Interval of the periodic cleanup timer: `60000` ms (map-manager.js:599). -/
def sweepInterval : Nat := 60000

/-- One run of the `setInterval` body of `setupCacheCleanup`
(map-manager.js:591-600): delete every entry with
`now - value.timestamp > this.cacheDuration` (strict `>` in source). -/
def cacheSweep (now : Nat) (cache : MemCache) : MemCache :=
  cache.filter fun kv => !(decide (cacheDuration < now - kv.2.timestamp))

/-! ## Persistent offline store (saveOfflineData / getOfflineData,
map-manager.js:685-744) -/

/-- An IndexedDB record of the `analysis` object store:
`{ plz, data, timestamp }` with `keyPath: 'plz'`; the key lives in the
association list, the record keeps the remaining fields. -/
structure OfflineRecord where
  data : Payload
  timestamp : Nat
deriving DecidableEq, Repr

/-- The `analysis` object store of the `waterDataCache` database. -/
abbrev OfflineStore := List (String × OfflineRecord)

/-- Freshness window of getOfflineData: `7 * 24 * 60 * 60 * 1000` ms
(map-manager.js:731). -/
def maxOfflineAge : Nat := 7 * 24 * 60 * 60 * 1000

/-- `saveOfflineData(plz, data)` (map-manager.js:685-715).
`idb` is the `'indexedDB' in window` feature test (false: return with no
effect). `injectedErr` models a rejection of the returned promise: the
`request.onerror` / `transaction.onerror` paths reject with the given
error; in that case the record is not committed. On success the record
`{ plz, data, timestamp: now }` is put, one record per key. -/
def saveOfflineData (idb : Bool) (injectedErr : Option String)
    (store : OfflineStore) (plz : String) (data : Payload) (now : Nat) :
    Except String OfflineStore :=
  if idb = false then .ok store
  else
    match injectedErr with
    | some e => .error e
    | none => .ok (upsert store plz ⟨data, now⟩)

/-- `getOfflineData(plz)` (map-manager.js:717-744). `idb` is the feature
test; `openErr` covers the `request.onerror` / `getRequest.onerror` paths,
which resolve `null` (this promise never rejects). A found record is
returned only if `Date.now() - result.timestamp < 7*24*60*60*1000`; a
stale or absent record resolves `null`. The store is returned unchanged:
the read performs no delete. -/
def getOfflineData (idb : Bool) (openErr : Bool) (store : OfflineStore)
    (plz : String) (now : Nat) : Option Payload × OfflineStore :=
  if idb = false then (none, store)
  else if openErr then (none, store)
  else
    match lookupKey store plz with
    | some result =>
        if now - result.timestamp < maxOfflineAge then (some result.data, store)
        else (none, store)
    | none => (none, store)

/-! ## Fallback data generator (getFallbackData / guessCityFromPLZ,
map-manager.js:747-793) -/

/-- Ambient invocation context of a JS call: clock and randomness state.
The translation threads it explicitly so that (in)dependence on it is a
statable property; `getFallbackData`'s source body reads neither
`Date.now()` nor `Math.random()`, so its translated body ignores it. -/
structure World where
  now : Nat
  random : Nat
deriving DecidableEq, Repr

/-- Source tag attached to a result of the data access layer
(`'memory_cache' | 'offline_storage' | 'api' | 'fallback_data'`). -/
inductive Source
  | memory_cache
  | offline_storage
  | api
  | fallback_data
deriving DecidableEq, Repr

/-- A scaled-exact measured value of the fallback payload. The source
computes floats like `(10 + seed * 30).toFixed(1)` with
`seed = (hash % 100) / 100`; those values are exact multiples of
`1 / scale`, kept here as `valueScaled / scale` to avoid floats (the
`toFixed` rendering is a deterministic function of this exact value). -/
structure MeasuredValue where
  valueScaled : Nat
  scale : Nat
  unit : String
  limit : Option Nat
deriving DecidableEq, Repr

/-- The `riskAssessment` object of the fallback payload. -/
structure RiskAssessment where
  level : String
  score : Nat
  color : String
deriving DecidableEq, Repr

/-- One entry of the fallback `recommendations` list. -/
structure ProductRec where
  id : String
  name : String
  filterKind : String
  price : Nat
deriving DecidableEq, Repr

/-- The object literal returned by `getFallbackData`. -/
structure FallbackData where
  success : Bool
  plz : String
  city : String
  pfas : MeasuredValue
  nitrate : MeasuredValue
  hardness : MeasuredValue
  riskAssessment : RiskAssessment
  recommendations : List ProductRec
  source : Source
  offline : Bool
deriving DecidableEq, Repr

/-- The checksum seed of `getFallbackData`:
`plz.split('').reduce((acc, char) => acc + char.charCodeAt(0), 0)`
(map-manager.js:748). Code points of the (ASCII postal-code) characters
are summed. -/
def plzHash (plz : String) : Nat :=
  plz.toList.foldl (fun acc char => acc + char.toNat) 0

/-- `guessCityFromPLZ(plz)` (map-manager.js:778-793): look up the first
two characters of the postal code in a fixed table. -/
def guessCityFromPLZ (plz : String) : String :=
  let p := String.mk (plz.toList.take 2)
  if p = "10" then "Berlin"
  else if p = "20" then "Hamburg"
  else if p = "30" then "Hannover"
  else if p = "40" then "Düsseldorf"
  else if p = "50" then "Köln"
  else if p = "60" then "Frankfurt"
  else if p = "70" then "Stuttgart"
  else if p = "80" then "München"
  else if p = "90" then "Nürnberg"
  else "Unbekannte Region"

/-- `getFallbackData(plz)` (map-manager.js:747-776). With
`n := hash % 100` the source's `seed` is `n / 100`; the derived numbers
are kept exactly: pfas `10 + seed*30 = (100 + 3n)/10` ng/L (limit 20),
nitrate `20 + seed*30 = (200 + 3n)/10` mg/L (limit 50), hardness
`10 + seed*15 = (1000 + 15n)/100` °dH; `seed > 0.7` is `70 < n` and
`seed > 0.4` is `40 < n`; `Math.round(seed * 70)` is `(7n + 5) / 10`
(round half up). The body reads nothing from `world`. -/
def getFallbackData (world : World) (plz : String) : FallbackData :=
  let hash := plzHash plz
  let seedPct := hash % 100
  { success := true
    plz := plz
    city := guessCityFromPLZ plz
    pfas := ⟨100 + 3 * seedPct, 10, "ng/L", some 20⟩
    nitrate := ⟨200 + 3 * seedPct, 10, "mg/L", some 50⟩
    hardness := ⟨1000 + 15 * seedPct, 100, "°dH", none⟩
    riskAssessment :=
      ⟨if 70 < seedPct then "medium" else if 40 < seedPct then "elevated" else "low",
       (7 * seedPct + 5) / 10,
       if 70 < seedPct then "orange" else if 40 < seedPct then "yellow" else "green"⟩
    recommendations := [⟨"lotus_vita", "Lotus Vita Fontana", "countertop", 329⟩]
    source := .fallback_data
    offline := true }

/-! ## Resilient fetch client (fetchWithRetry, map-manager.js:658-682) -/

/-- Outcome of one loop iteration of `fetchWithRetry`: the attempt either
resolves parsed JSON (`response.json()` of an `ok` response) or throws
(abort on the 8 s timeout, network rejection, or the `HTTP <status>`
error raised on a non-2xx response). -/
inductive AttemptOutcome
  | ok (p : Payload)
  | fail (e : String)
deriving DecidableEq, Repr

/-- Result of a whole `fetchWithRetry` call. `undef` is the value of a
call with `retries = 0`, whose loop never runs and which returns
JavaScript `undefined`. -/
inductive RetryResult
  | ok (p : Payload)
  | err (e : String)
  | undef
deriving DecidableEq, Repr

/-- The retry loop of `fetchWithRetry`, at absolute attempt index `i`
with `fuel = retries - i` iterations left (so the source's
`i === retries - 1` test is `fuel = 1`). Returns the result, the number
of attempts made, and the list of back-off delays waited, in order; a
failed attempt `i` that is not the last waits `1000 * 2 ^ i` ms
(map-manager.js:678). -/
def fwrGo (att : Nat → AttemptOutcome) : Nat → Nat → RetryResult × Nat × List Nat
  | _, 0 => (.undef, 0, [])
  | i, fuel + 1 =>
    match att i with
    | .ok p => (.ok p, 1, [])
    | .fail e =>
        if fuel = 0 then (.err e, 1, [])
        else
          let r := fwrGo att (i + 1) fuel
          (r.1, r.2.1 + 1, (1000 * 2 ^ i) :: r.2.2)

/-- `fetchWithRetry(url, options, retries = 3)` (map-manager.js:658-682),
abstracted over the sequence `att` of attempt outcomes. -/
def fetchWithRetry (att : Nat → AttemptOutcome) (retries : Nat := 3) :
    RetryResult × Nat × List Nat :=
  fwrGo att 0 retries

/-! ## Data access layer (fetchWaterAnalysis, map-manager.js:603-655) -/

/-- The ambient facts one call to `fetchWaterAnalysis` observes:
the clock (`Date.now()`), the random state (unused by this subsystem),
`navigator.onLine`, the `'indexedDB' in window` feature test, the
outcomes of `getOfflineData`'s IndexedDB open (`openErr`), of
`saveOfflineData`'s IndexedDB operations (`saveErr`), and of the single
`fetchWithRetry` invocation (`net`: resolved JSON or the message of the
propagated last error). -/
structure FetchEnv where
  now : Nat
  random : Nat
  online : Bool
  idb : Bool
  openErr : Bool
  saveErr : Option String
  net : Except String Payload

/-- The mutable state a call reads and writes: the in-memory cache
`this.cache` and the IndexedDB `analysis` store. -/
structure FetchState where
  cache : MemCache
  store : OfflineStore
deriving DecidableEq, Repr

/-- Result of one `fetchWaterAnalysis` call: a payload spread together
with its `source` tag, the structured fallback object, or a rejection
with the thrown error's message. -/
inductive FetchResult
  | success (data : Payload) (source : Source)
  | fallback (fb : FallbackData)
  | failure (msg : String)
deriving DecidableEq, Repr

/-- A finished call: its result, the state it leaves behind, and whether
it invoked `fetchWithRetry` (one logical network consult). -/
structure FetchOut where
  result : FetchResult
  state : FetchState
  networkConsulted : Bool
deriving DecidableEq, Repr

/-- The memory-cache probe at the top of `fetchWaterAnalysis`
(map-manager.js:607-612): skipped under `forceRefresh`; a held entry is
returned only if `Date.now() - cached.timestamp < this.cacheDuration`. -/
def memLookup (env : FetchEnv) (st : FetchState) (cacheKey : String)
    (forceRefresh : Bool) : Option Payload :=
  if forceRefresh then none
  else
    match lookupKey st.cache cacheKey with
    | some cached =>
        if env.now - cached.timestamp < cacheDuration then some cached.data
        else none
    | none => none

/-- `fetchWaterAnalysis(plz, forceRefresh = false)` (map-manager.js:603-655).
Order of the source: (1) memory cache; (2) if `!navigator.onLine`,
offline store, else the offline-unavailable throw; (3) `fetchWithRetry`;
on success `this.cache.set` then `await this.saveOfflineData` — the
latter sits inside the `try`, so its rejection reaches the same `catch`
as a network error; the `catch` returns `getFallbackData(plz)` when the
error message contains `'Failed to fetch'` and rethrows otherwise. -/
def fetchWaterAnalysis (env : FetchEnv) (st : FetchState) (plz : String)
    (forceRefresh : Bool := false) : FetchOut :=
  let cacheKey := "analysis_" ++ plz
  match memLookup env st cacheKey forceRefresh with
  | some d => ⟨.success d .memory_cache, st, false⟩
  | none =>
    if env.online = false then
      match (getOfflineData env.idb env.openErr st.store plz env.now).1 with
      | some d => ⟨.success d .offline_storage, st, false⟩
      | none => ⟨.failure "Offline und keine gespeicherten Daten verfügbar", st, false⟩
    else
      match env.net with
      | .ok data =>
        let cache2 := upsert st.cache cacheKey ⟨data, env.now⟩
        match saveOfflineData env.idb env.saveErr st.store plz data env.now with
        | .ok store2 => ⟨.success data .api, ⟨cache2, store2⟩, true⟩
        | .error e =>
            if jsIncludes e "Failed to fetch" then
              ⟨.fallback (getFallbackData ⟨env.now, env.random⟩ plz), ⟨cache2, st.store⟩, true⟩
            else ⟨.failure e, ⟨cache2, st.store⟩, true⟩
      | .error e =>
          if jsIncludes e "Failed to fetch" then
            ⟨.fallback (getFallbackData ⟨env.now, env.random⟩ plz), st, true⟩
          else ⟨.failure e, st, true⟩

/-! ## Worker-side cache router (src/public/sw.js) -/

/-- `API_CACHE_PATTERNS` (sw.js:20-23). -/
def API_CACHE_PATTERNS : List String :=
  ["/api/water-analysis", "/api/plz-data"]

/-- `PRECACHE_ASSETS` (sw.js:9-17). -/
def PRECACHE_ASSETS : List String :=
  ["/", "/index.html", "/styles/main.css", "/scripts/main.js",
   "/images/logo.png", "/manifest.json", "/favicon.ico"]

/-- `OFFLINE_URL` (sw.js:6). -/
def OFFLINE_URL : String := "/offline.html"

/-- The parts of a fetch-event request the router inspects:
`url.pathname`, `request.method`, `request.mode`. -/
structure SWRequest where
  pathname : String
  method : String
  mode : String
deriving DecidableEq, Repr

/-- Body of a worker response: either opaque content or the synthetic
offline JSON object `JSON.stringify({ error, message })` built by
`handleApiRequest`. -/
inductive SWBody
  | content (s : String)
  | offlineJson (error : String) (message : String)
deriving DecidableEq, Repr

/-- A response as the router observes it: HTTP status and body.
`clone()` is the identity on this model. -/
structure SWResponse where
  status : Nat
  body : SWBody
deriving DecidableEq, Repr

/-- The current cache generation (the single bucket `CACHE_NAME`),
keyed by request URL path. -/
abbrev SWCache := List (String × SWResponse)

/-- Strategy class the fetch listener assigns to a request
(sw.js:50-71): non-GET requests return without `respondWith`; otherwise
API patterns are tested first, then the precache manifest, each via
`url.pathname.includes(...)`; everything left goes network-first. -/
inductive RouteClass
  | passthroughNonGet
  | api
  | staticAsset
  | networkFirst
deriving DecidableEq, Repr

/-- The classification performed by the `fetch` event listener
(sw.js:50-71). -/
def classify (req : SWRequest) : RouteClass :=
  if req.method ≠ "GET" then .passthroughNonGet
  else if API_CACHE_PATTERNS.any (fun pattern => jsIncludes req.pathname pattern) then .api
  else if PRECACHE_ASSETS.any (fun asset => jsIncludes req.pathname asset) then .staticAsset
  else .networkFirst

/-- The synthetic offline response of `handleApiRequest` (sw.js:95-107). -/
def offlineFallbackResponse : SWResponse :=
  ⟨503, .offlineJson "Offline"
    "Sie sind offline. Bitte stellen Sie eine Internetverbindung her."⟩

/-- `handleApiRequest(request)` (sw.js:74-109), with `net` the outcome of
`fetch(request)` (`.error ()` models a rejected fetch, which carries no
response). A network response is cached under the request's path only
when its status is 200, and returned; on rejection the cache is
consulted; a double miss yields the synthetic 503 offline JSON. -/
def handleApiRequest (cache : SWCache) (req : SWRequest)
    (net : Except Unit SWResponse) : SWResponse × SWCache :=
  match net with
  | .ok networkResponse =>
      (networkResponse,
        if networkResponse.status = 200 then upsert cache req.pathname networkResponse
        else cache)
  | .error _ =>
      match lookupKey cache req.pathname with
      | some cachedResponse => (cachedResponse, cache)
      | none => (offlineFallbackResponse, cache)

/-- What a handler's returned promise does: resolve a response, reject
with a thrown `ReferenceError` on the given unbound identifier, reject
with the network failure, or resolve JavaScript `undefined`
(`caches.match` miss). -/
inductive SWOutcome
  | response (r : SWResponse)
  | refErr (name : String)
  | netErr
  | undefinedResp
deriving DecidableEq, Repr

/-- `handleStaticRequest(request)` (sw.js:112-123). On a cache hit the
source executes `event.waitUntil(updateCache(request, cache))`, but
`event` is not bound in any enclosing scope of sw.js and worker global
scopes have no `event` property, so this line throws a `ReferenceError`
before `cachedResponse` is returned: the promise rejects and the cache
is left untouched (`updateCache` never runs). On a miss the request goes
to the network directly and is not cached. -/
def handleStaticRequest (cache : SWCache) (req : SWRequest)
    (net : Except Unit SWResponse) : SWOutcome × SWCache :=
  match lookupKey cache req.pathname with
  | some _ => (.refErr "event", cache)
  | none =>
      match net with
      | .ok r => (.response r, cache)
      | .error _ => (.netErr, cache)

/-- `handleNetworkFirst(request)` (sw.js:126-145): network, then cache;
on a double miss a navigation request resolves `caches.match(OFFLINE_URL)`
(which is `undefined` when the offline page is not cached) and any other
request rethrows the network failure. -/
def handleNetworkFirst (cache : SWCache) (req : SWRequest)
    (net : Except Unit SWResponse) : SWOutcome :=
  match net with
  | .ok r => .response r
  | .error _ =>
      match lookupKey cache req.pathname with
      | some cachedResponse => .response cachedResponse
      | none =>
          if req.mode = "navigate" then
            match lookupKey cache OFFLINE_URL with
            | some r => .response r
            | none => .undefinedResp
          else .netErr

/-! ## Analytics buffer (bufferAnalytics, affiliate-optimizer.js:389-393) -/

/-- A buffered analytics event (opaque JSON). -/
abbrev AnalyticsEvent := String

/-- `bufferAnalytics(event)` (affiliate-optimizer.js:389-393): parse the
stored list, push the event, store `buffer.slice(-50)` — that is, the
last `min(50, length)` elements. -/
def bufferAnalytics (buffer : List AnalyticsEvent) (event : AnalyticsEvent) :
    List AnalyticsEvent :=
  let pushed := buffer ++ [event]
  pushed.drop (pushed.length - 50)

/-! ## Helper lemmas -/

/-- Reading back the key just written finds the fresh binding. -/
theorem lookupKey_upsert {β : Type} (l : List (String × β)) (k : String) (v : β) :
    lookupKey (upsert l k v) k = some v := by
  induction l with
  | nil => simp [upsert, lookupKey]
  | cons hd tl ih =>
    obtain ⟨k', v'⟩ := hd
    by_cases h : k' = k
    · simp [upsert, h, lookupKey]
    · simp [upsert, h, lookupKey, ih]

/-- A memory-cache hit determines the whole call. -/
theorem fetch_mem {env : FetchEnv} {st : FetchState} {plz : String} {fr : Bool}
    {d : Payload} (h : memLookup env st ("analysis_" ++ plz) fr = some d) :
    fetchWaterAnalysis env st plz fr = ⟨.success d .memory_cache, st, false⟩ := by
  simp [fetchWaterAnalysis, h]

/-- On a cache miss while offline, a usable persistent record is served. -/
theorem fetch_offline_hit {env : FetchEnv} {st : FetchState} {plz : String}
    {fr : Bool} {d : Payload}
    (hm : memLookup env st ("analysis_" ++ plz) fr = none)
    (ho : env.online = false)
    (hg : (getOfflineData env.idb env.openErr st.store plz env.now).1 = some d) :
    fetchWaterAnalysis env st plz fr = ⟨.success d .offline_storage, st, false⟩ := by
  simp [fetchWaterAnalysis, hm, ho, hg]

/-- On a cache miss while offline with no usable record, the call throws. -/
theorem fetch_offline_miss {env : FetchEnv} {st : FetchState} {plz : String}
    {fr : Bool}
    (hm : memLookup env st ("analysis_" ++ plz) fr = none)
    (ho : env.online = false)
    (hg : (getOfflineData env.idb env.openErr st.store plz env.now).1 = none) :
    fetchWaterAnalysis env st plz fr
      = ⟨.failure "Offline und keine gespeicherten Daten verfügbar", st, false⟩ := by
  simp [fetchWaterAnalysis, hm, ho, hg]

/-- Network success with a successful persistent write: both caches are
populated and the payload is returned tagged `api`. -/
theorem fetch_net_ok_save_ok {env : FetchEnv} {st : FetchState} {plz : String}
    {fr : Bool} {d : Payload} {s2 : OfflineStore}
    (hm : memLookup env st ("analysis_" ++ plz) fr = none)
    (ho : env.online = true) (hn : env.net = .ok d)
    (hs : saveOfflineData env.idb env.saveErr st.store plz d env.now = .ok s2) :
    fetchWaterAnalysis env st plz fr
      = ⟨.success d .api,
          ⟨upsert st.cache ("analysis_" ++ plz) ⟨d, env.now⟩, s2⟩, true⟩ := by
  simp [fetchWaterAnalysis, hm, ho, hn, hs]

/-- Network success but rejected persistent write whose message does not
contain `'Failed to fetch'`: the rejection propagates out of the call,
after the memory cache was already populated. -/
theorem fetch_net_ok_save_err_propagates {env : FetchEnv} {st : FetchState}
    {plz : String} {fr : Bool} {d : Payload} {e : String}
    (hm : memLookup env st ("analysis_" ++ plz) fr = none)
    (ho : env.online = true) (hn : env.net = .ok d)
    (hs : saveOfflineData env.idb env.saveErr st.store plz d env.now = .error e)
    (hincl : jsIncludes e "Failed to fetch" = false) :
    fetchWaterAnalysis env st plz fr
      = ⟨.failure e,
          ⟨upsert st.cache ("analysis_" ++ plz) ⟨d, env.now⟩, st.store⟩, true⟩ := by
  simp [fetchWaterAnalysis, hm, ho, hn, hs, hincl]

/-- Network success but rejected persistent write whose message contains
`'Failed to fetch'`: the catch converts it into fallback data. -/
theorem fetch_net_ok_save_err_fallback {env : FetchEnv} {st : FetchState}
    {plz : String} {fr : Bool} {d : Payload} {e : String}
    (hm : memLookup env st ("analysis_" ++ plz) fr = none)
    (ho : env.online = true) (hn : env.net = .ok d)
    (hs : saveOfflineData env.idb env.saveErr st.store plz d env.now = .error e)
    (hincl : jsIncludes e "Failed to fetch" = true) :
    fetchWaterAnalysis env st plz fr
      = ⟨.fallback (getFallbackData ⟨env.now, env.random⟩ plz),
          ⟨upsert st.cache ("analysis_" ++ plz) ⟨d, env.now⟩, st.store⟩, true⟩ := by
  simp [fetchWaterAnalysis, hm, ho, hn, hs, hincl]

/-- A failed network fetch whose message does not contain
`'Failed to fetch'` propagates; no cache is touched. -/
theorem fetch_net_err_propagates {env : FetchEnv} {st : FetchState}
    {plz : String} {fr : Bool} {e : String}
    (hm : memLookup env st ("analysis_" ++ plz) fr = none)
    (ho : env.online = true) (hn : env.net = .error e)
    (hincl : jsIncludes e "Failed to fetch" = false) :
    fetchWaterAnalysis env st plz fr = ⟨.failure e, st, true⟩ := by
  simp [fetchWaterAnalysis, hm, ho, hn, hincl]

/-- A failed network fetch whose message contains `'Failed to fetch'`
yields fallback data; no cache is touched. -/
theorem fetch_net_err_fallback {env : FetchEnv} {st : FetchState}
    {plz : String} {fr : Bool} {e : String}
    (hm : memLookup env st ("analysis_" ++ plz) fr = none)
    (ho : env.online = true) (hn : env.net = .error e)
    (hincl : jsIncludes e "Failed to fetch" = true) :
    fetchWaterAnalysis env st plz fr
      = ⟨.fallback (getFallbackData ⟨env.now, env.random⟩ plz), st, true⟩ := by
  simp [fetchWaterAnalysis, hm, ho, hn, hincl]

/-- After a cache miss while online with a successful network fetch, the
memory cache holds the fresh entry and the network was consulted,
whatever the persistent write did. -/
theorem fetch_net_ok_cache {env : FetchEnv} {st : FetchState} {plz : String}
    {fr : Bool} {d : Payload}
    (hm : memLookup env st ("analysis_" ++ plz) fr = none)
    (ho : env.online = true) (hn : env.net = .ok d) :
    (fetchWaterAnalysis env st plz fr).state.cache
        = upsert st.cache ("analysis_" ++ plz) ⟨d, env.now⟩ ∧
      (fetchWaterAnalysis env st plz fr).networkConsulted = true := by
  cases hs : saveOfflineData env.idb env.saveErr st.store plz d env.now with
  | ok s2 => rw [fetch_net_ok_save_ok hm ho hn hs]; exact ⟨rfl, rfl⟩
  | error e =>
    cases hincl : jsIncludes e "Failed to fetch" with
    | true => rw [fetch_net_ok_save_err_fallback hm ho hn hs hincl]; exact ⟨rfl, rfl⟩
    | false => rw [fetch_net_ok_save_err_propagates hm ho hn hs hincl]; exact ⟨rfl, rfl⟩

/-- A cache miss while online always consults the network. -/
theorem fetch_consults {env : FetchEnv} {st : FetchState} {plz : String}
    {fr : Bool}
    (hm : memLookup env st ("analysis_" ++ plz) fr = none)
    (ho : env.online = true) :
    (fetchWaterAnalysis env st plz fr).networkConsulted = true := by
  cases hn : env.net with
  | ok d => exact (fetch_net_ok_cache hm ho hn).2
  | error e =>
    cases hincl : jsIncludes e "Failed to fetch" with
    | true => rw [fetch_net_err_fallback hm ho hn hincl]
    | false => rw [fetch_net_err_propagates hm ho hn hincl]

/-- While offline the network is never consulted. -/
theorem fetch_no_consult_offline {env : FetchEnv} {st : FetchState}
    {plz : String} {fr : Bool} (ho : env.online = false) :
    (fetchWaterAnalysis env st plz fr).networkConsulted = false := by
  cases hm : memLookup env st ("analysis_" ++ plz) fr with
  | some d => rw [fetch_mem hm]
  | none =>
    cases hg : (getOfflineData env.idb env.openErr st.store plz env.now).1 with
    | some d => rw [fetch_offline_hit hm ho hg]
    | none => rw [fetch_offline_miss hm ho hg]

/-- A memory-cache hit comes from a held entry that is strictly fresher
than the TTL, and only without `forceRefresh`. -/
theorem memLookup_some {env : FetchEnv} {st : FetchState} {key : String}
    {fr : Bool} {d : Payload} (h : memLookup env st key fr = some d) :
    fr = false ∧ ∃ e, lookupKey st.cache key = some e ∧ e.data = d ∧
      env.now - e.timestamp < cacheDuration := by
  cases fr with
  | true => simp [memLookup] at h
  | false =>
    refine ⟨rfl, ?_⟩
    cases hl : lookupKey st.cache key with
    | none => simp [memLookup, hl] at h
    | some cached =>
      simp only [memLookup, hl, Bool.false_eq_true, if_false] at h
      split_ifs at h with hfresh
      exact ⟨cached, rfl, Option.some.inj h, hfresh⟩

/-- A held entry fresher than the TTL is found by the cache probe. -/
theorem memLookup_of_fresh {env : FetchEnv} {st : FetchState} {key : String}
    {e : CacheEntry} (hl : lookupKey st.cache key = some e)
    (hf : env.now - e.timestamp < cacheDuration) :
    memLookup env st key false = some e.data := by
  simp [memLookup, hl, hf]

/-- A result tagged `memory_cache` can only have come from the cache probe. -/
theorem memory_source_of_result {env : FetchEnv} {st : FetchState}
    {plz : String} {fr : Bool} {d : Payload}
    (h : (fetchWaterAnalysis env st plz fr).result = .success d .memory_cache) :
    memLookup env st ("analysis_" ++ plz) fr = some d := by
  cases hm : memLookup env st ("analysis_" ++ plz) fr with
  | some a =>
    rw [fetch_mem hm] at h
    simp only [FetchResult.success.injEq] at h
    exact congrArg some h.1
  | none =>
    exfalso
    cases ho : env.online with
    | false =>
      cases hg : (getOfflineData env.idb env.openErr st.store plz env.now).1 with
      | some a => rw [fetch_offline_hit hm ho hg] at h; simp at h
      | none => rw [fetch_offline_miss hm ho hg] at h; simp at h
    | true =>
      cases hn : env.net with
      | ok data =>
        cases hs : saveOfflineData env.idb env.saveErr st.store plz data env.now with
        | ok s2 => rw [fetch_net_ok_save_ok hm ho hn hs] at h; simp at h
        | error e =>
          cases hincl : jsIncludes e "Failed to fetch" with
          | true => rw [fetch_net_ok_save_err_fallback hm ho hn hs hincl] at h; simp at h
          | false => rw [fetch_net_ok_save_err_propagates hm ho hn hs hincl] at h; simp at h
      | error e =>
        cases hincl : jsIncludes e "Failed to fetch" with
        | true => rw [fetch_net_err_fallback hm ho hn hincl] at h; simp at h
        | false => rw [fetch_net_err_propagates hm ho hn hincl] at h; simp at h

/-- The retry loop makes at most as many attempts as it has fuel. -/
theorem fwrGo_le (att : Nat → AttemptOutcome) :
    ∀ fuel i, (fwrGo att i fuel).2.1 ≤ fuel := by
  intro fuel
  induction fuel with
  | zero => intro i; simp [fwrGo]
  | succ f ih =>
    intro i
    cases h : att i with
    | ok p => simp [fwrGo, h]
    | fail e =>
      by_cases hf : f = 0
      · simp [fwrGo, h, hf]
      · have := ih (i + 1)
        simp only [fwrGo, h, hf, if_false]
        omega

/-- With fuel left, the loop makes at least one attempt. -/
theorem fwrGo_pos (att : Nat → AttemptOutcome) :
    ∀ fuel i, 1 ≤ fuel → 1 ≤ (fwrGo att i fuel).2.1 := by
  intro fuel i hf
  cases fuel with
  | zero => omega
  | succ f =>
    cases h : att i with
    | ok p => simp [fwrGo, h]
    | fail e =>
      by_cases hf0 : f = 0
      · simp [fwrGo, h, hf0]
      · simp only [fwrGo, h, hf0, if_false]
        omega

/-- Shifting the base index of the back-off schedule by one and consing
the skipped delay recovers the schedule over a one-longer range. -/
theorem range_map_shift (m i : Nat) :
    1000 * 2 ^ i :: (List.range m).map (fun j => 1000 * 2 ^ (i + 1 + j))
      = (List.range (m + 1)).map (fun j => 1000 * 2 ^ (i + j)) := by
  induction m generalizing i with
  | zero => simp [List.range_succ]
  | succ m ih =>
    have h1 : (List.range (m + 1)).map (fun j => 1000 * 2 ^ (i + 1 + j))
        = ((List.range m).map (fun j => 1000 * 2 ^ (i + 1 + j)))
            ++ [1000 * 2 ^ (i + 1 + m)] := by
      rw [List.range_succ, List.map_append]; rfl
    have h2 : (List.range (m + 1 + 1)).map (fun j => 1000 * 2 ^ (i + j))
        = ((List.range (m + 1)).map (fun j => 1000 * 2 ^ (i + j)))
            ++ [1000 * 2 ^ (i + (m + 1))] := by
      rw [List.range_succ, List.map_append]; rfl
    rw [h1, h2, ← ih, List.cons_append]
    have he : i + 1 + m = i + (m + 1) := by omega
    rw [he]

/-- The delays waited by the retry loop are exactly the exponential
back-off schedule for all attempts but the last one made. -/
theorem fwrGo_delays (att : Nat → AttemptOutcome) :
    ∀ fuel i, (fwrGo att i fuel).2.2
      = (List.range ((fwrGo att i fuel).2.1 - 1)).map (fun j => 1000 * 2 ^ (i + j)) := by
  intro fuel
  induction fuel with
  | zero => intro i; simp [fwrGo]
  | succ f ih =>
    intro i
    cases h : att i with
    | ok p => simp [fwrGo, h]
    | fail e =>
      by_cases hf : f = 0
      · simp [fwrGo, h, hf]
      · have hpos := fwrGo_pos att f (i + 1) (by omega)
        simp only [fwrGo, h, hf, if_false]
        rw [ih (i + 1)]
        obtain ⟨n, hn⟩ : ∃ n, (fwrGo att (i + 1) f).2.1 = n + 1 :=
          ⟨(fwrGo att (i + 1) f).2.1 - 1, by omega⟩
        rw [hn]
        simp only [Nat.add_sub_cancel]
        exact range_map_shift n i

/-- A run whose first `fuel - 1` attempts fail and whose last attempt
succeeds returns the success, makes `fuel` attempts, and waits the full
back-off schedule between them. -/
theorem fwrGo_succeeds_at (att : Nat → AttemptOutcome) :
    ∀ fuel i p, (∀ j, j + 1 < fuel → ∃ e, att (i + j) = .fail e) →
      att (i + (fuel - 1)) = .ok p → 1 ≤ fuel →
      fwrGo att i fuel
        = (.ok p, fuel, (List.range (fuel - 1)).map fun j => 1000 * 2 ^ (i + j)) := by
  intro fuel
  induction fuel with
  | zero => intro i p _ _ h; omega
  | succ f ih =>
    intro i p hfail hok _
    by_cases hf : f = 0
    · subst hf
      simp only [Nat.add_sub_cancel, Nat.add_zero] at hok
      simp [fwrGo, hok]
    · obtain ⟨e0, he0⟩ := hfail 0 (by omega)
      rw [Nat.add_zero] at he0
      have hfail' : ∀ j, j + 1 < f → ∃ e, att (i + 1 + j) = .fail e := by
        intro j hj
        obtain ⟨e, he⟩ := hfail (j + 1) (by omega)
        exact ⟨e, by rw [show i + 1 + j = i + (j + 1) by omega]; exact he⟩
      have hok' : att (i + 1 + (f - 1)) = .ok p := by
        rw [show i + 1 + (f - 1) = i + (f + 1 - 1) by omega]
        exact hok
      have hrec := ih (i + 1) p hfail' hok' (by omega)
      simp only [fwrGo, he0, hf, if_false]
      rw [hrec]
      obtain ⟨n, hn⟩ : ∃ n, f = n + 1 := ⟨f - 1, by omega⟩
      subst hn
      simp only [Nat.add_sub_cancel]
      rw [range_map_shift n i]

/-- When every attempt fails, the loop exhausts its fuel, propagates the
last attempt's error and waits the full back-off schedule. -/
theorem fwrGo_all_fail (att : Nat → AttemptOutcome) (es : Nat → String)
    (h : ∀ j, att j = .fail (es j)) :
    ∀ fuel i, 1 ≤ fuel →
      fwrGo att i fuel
        = (.err (es (i + fuel - 1)), fuel,
            (List.range (fuel - 1)).map fun j => 1000 * 2 ^ (i + j)) := by
  intro fuel
  induction fuel with
  | zero => intro i h1; omega
  | succ f ih =>
    intro i _
    by_cases hf : f = 0
    · subst hf
      simp [fwrGo, h i]
    · have hrec := ih (i + 1) (by omega)
      simp only [fwrGo, h i, hf, if_false]
      rw [hrec]
      obtain ⟨n, hn⟩ : ∃ n, f = n + 1 := ⟨f - 1, by omega⟩
      subst hn
      simp only [Nat.add_sub_cancel]
      rw [range_map_shift n i]
      have he : i + 1 + (n + 1) - 1 = i + (n + 1 + 1) - 1 := by omega
      rw [he]

/-! ## Claim theorems -/

/-- C1 (counterexample): two `fetchWaterAnalysis` calls for the same key
within the TTL window (0 ms and 1000 ms, window 300000 ms), both without
`forceRefresh`, both consult the network — the first call's network
fetch rejects with `'HTTP 500'`, so the memory cache is left unpopulated
and the second call consults the network again; the claim's "at most one
network request" bound fails. -/
theorem fetchWaterAnalysis_two_calls_two_network_consults :
    (fetchWaterAnalysis ⟨0, 0, true, true, false, none, .error "HTTP 500"⟩
        ⟨[], []⟩ "10115" false).networkConsulted = true ∧
    (fetchWaterAnalysis ⟨1000, 0, true, true, false, none, .error "HTTP 500"⟩
        (fetchWaterAnalysis ⟨0, 0, true, true, false, none, .error "HTTP 500"⟩
          ⟨[], []⟩ "10115" false).state
        "10115" false).networkConsulted = true ∧
    (1000 : Nat) - 0 < cacheDuration := by decide

/-- C1 (amended): `fetchWaterAnalysis` resolves by the first matching
rule in order — (1) without `forceRefresh` a held memory-cache entry
younger than the TTL is returned tagged `memory_cache` with no network
consult; (2) otherwise, offline, a fresh-enough persistent record is
returned tagged `offline_storage` and its absence fails the call with
the offline-unavailable error, never consulting the network; (3) only
otherwise is the network consulted. Two calls within the TTL window
without `forceRefresh` issue at most one network consult provided the
first call's network fetch succeeds (the success populates the memory
cache, so the second call is a memory hit); after a failed network
fetch the cache stays unpopulated and a second call consults again
(see the counterexample). -/
theorem fetchWaterAnalysis_dispatch_order (env env₂ : FetchEnv)
    (st : FetchState) (plz : String) :
    (∀ e : CacheEntry, lookupKey st.cache ("analysis_" ++ plz) = some e →
        env.now - e.timestamp < cacheDuration →
        fetchWaterAnalysis env st plz false
          = ⟨.success e.data .memory_cache, st, false⟩) ∧
    (memLookup env st ("analysis_" ++ plz) false = none → env.online = false →
        (∀ d, (getOfflineData env.idb env.openErr st.store plz env.now).1 = some d →
            fetchWaterAnalysis env st plz false
              = ⟨.success d .offline_storage, st, false⟩) ∧
        ((getOfflineData env.idb env.openErr st.store plz env.now).1 = none →
            fetchWaterAnalysis env st plz false
              = ⟨.failure "Offline und keine gespeicherten Daten verfügbar", st, false⟩)) ∧
    (memLookup env st ("analysis_" ++ plz) false = none → env.online = true →
        (fetchWaterAnalysis env st plz false).networkConsulted = true) ∧
    (env.online = false →
        (fetchWaterAnalysis env st plz false).networkConsulted = false) ∧
    (∀ d, env.net = .ok d → env.online = true →
        memLookup env st ("analysis_" ++ plz) false = none →
        env₂.now - env.now < cacheDuration →
        fetchWaterAnalysis env₂ (fetchWaterAnalysis env st plz false).state plz false
          = ⟨.success d .memory_cache,
              (fetchWaterAnalysis env st plz false).state, false⟩) := by
  refine ⟨?_, ?_, ?_, ?_, ?_⟩
  · intro e hl hf
    exact fetch_mem (memLookup_of_fresh hl hf)
  · intro hm ho
    exact ⟨fun d hg => fetch_offline_hit hm ho hg,
           fun hg => fetch_offline_miss hm ho hg⟩
  · intro hm ho
    exact fetch_consults hm ho
  · intro ho
    exact fetch_no_consult_offline ho
  · intro d hn ho hm hfresh
    have hcache := (fetch_net_ok_cache hm ho hn).1
    have hl : lookupKey (fetchWaterAnalysis env st plz false).state.cache
        ("analysis_" ++ plz) = some ⟨d, env.now⟩ := by
      rw [hcache]; exact lookupKey_upsert _ _ _
    exact fetch_mem (memLookup_of_fresh hl hfresh)

/-- C1 (witness): a held fresh entry is served from the memory cache
unchanged, with no network consult. -/
theorem fetchWaterAnalysis_dispatch_order_witness :
    fetchWaterAnalysis ⟨1000, 0, true, true, false, none, .error "x"⟩
        ⟨[("analysis_10115", ⟨"p", 0⟩)], []⟩ "10115" false
      = ⟨.success "p" .memory_cache, ⟨[("analysis_10115", ⟨"p", 0⟩)], []⟩, false⟩ :=
  (fetchWaterAnalysis_dispatch_order
      ⟨1000, 0, true, true, false, none, .error "x"⟩
      ⟨1000, 0, true, true, false, none, .error "x"⟩
      ⟨[("analysis_10115", ⟨"p", 0⟩)], []⟩ "10115").1
    ⟨"p", 0⟩ (by decide) (by decide)

/-- C2 (counterexample): with the network succeeding and the persistent
write rejecting with `'IndexedDB error'`, the overall call fails with
that error instead of returning the payload tagged `api` — the awaited
`saveOfflineData` rejection reaches the catch, whose message test
`'Failed to fetch'` does not match, so it rethrows. -/
theorem fetchWaterAnalysis_persist_failure_fails_call :
    (fetchWaterAnalysis ⟨0, 0, true, true, false, some "IndexedDB error", .ok "payload"⟩
        ⟨[], []⟩ "10115" false).result = .failure "IndexedDB error" ∧
    (fetchWaterAnalysis ⟨0, 0, true, true, false, some "IndexedDB error", .ok "payload"⟩
        ⟨[], []⟩ "10115" false).result ≠ .success "payload" .api := by decide

/-- C2 (amended): on network success the payload is written to the
memory cache and then to the persistent store and returned tagged `api`
— but only when the persistent write succeeds or IndexedDB is
unavailable (the latter silently skips the write). When the persistent
write rejects with a message not containing `'Failed to fetch'`, the
overall call fails with that error (the memory cache having already
been populated) rather than returning the payload tagged `api`. -/
theorem fetchWaterAnalysis_persist_paths (env : FetchEnv) (st : FetchState)
    (plz : String) (d : Payload) (hn : env.net = .ok d)
    (ho : env.online = true)
    (hm : memLookup env st ("analysis_" ++ plz) false = none) :
    (env.idb = true → env.saveErr = none →
        fetchWaterAnalysis env st plz false
          = ⟨.success d .api,
              ⟨upsert st.cache ("analysis_" ++ plz) ⟨d, env.now⟩,
               upsert st.store plz ⟨d, env.now⟩⟩, true⟩) ∧
    (env.idb = false →
        fetchWaterAnalysis env st plz false
          = ⟨.success d .api,
              ⟨upsert st.cache ("analysis_" ++ plz) ⟨d, env.now⟩,
               st.store⟩, true⟩) ∧
    (∀ e, env.idb = true → env.saveErr = some e →
        jsIncludes e "Failed to fetch" = false →
        fetchWaterAnalysis env st plz false
          = ⟨.failure e,
              ⟨upsert st.cache ("analysis_" ++ plz) ⟨d, env.now⟩,
               st.store⟩, true⟩) := by
  refine ⟨?_, ?_, ?_⟩
  · intro hidb hse
    exact fetch_net_ok_save_ok hm ho hn (by simp [saveOfflineData, hidb, hse])
  · intro hidb
    exact fetch_net_ok_save_ok hm ho hn (by simp [saveOfflineData, hidb])
  · intro e hidb hse hincl
    exact fetch_net_ok_save_err_propagates hm ho hn
      (by simp [saveOfflineData, hidb, hse]) hincl

/-- C2 (witness): the persistent-write-failure path evaluated at a
concrete input. -/
theorem fetchWaterAnalysis_persist_paths_witness :
    fetchWaterAnalysis ⟨0, 0, true, true, false, some "IndexedDB error", .ok "payload"⟩
        ⟨[], []⟩ "10115" false
      = ⟨.failure "IndexedDB error",
          ⟨upsert [] ("analysis_" ++ "10115") ⟨"payload", 0⟩, []⟩, true⟩ :=
  (fetchWaterAnalysis_persist_paths
      ⟨0, 0, true, true, false, some "IndexedDB error", .ok "payload"⟩
      ⟨[], []⟩ "10115" "payload" rfl rfl (by decide)).2.2
    "IndexedDB error" rfl rfl (by decide)

/-- C3: for an API-class GET request, a 200 network response is stored
in the current cache generation under the request's path and returned;
a rejected fetch falls back to the cached response when one exists; and
a double miss yields the synthetic JSON response with body field
`error = "Offline"` and status 503. -/
theorem handleApiRequest_strategy (cache : SWCache) (req : SWRequest)
    (hclass : classify req = .api) :
    (∀ r : SWResponse, r.status = 200 →
        handleApiRequest cache req (.ok r) = (r, upsert cache req.pathname r)) ∧
    (∀ c, lookupKey cache req.pathname = some c →
        handleApiRequest cache req (.error ()) = (c, cache)) ∧
    (lookupKey cache req.pathname = none →
        handleApiRequest cache req (.error ()) = (offlineFallbackResponse, cache) ∧
        offlineFallbackResponse.status = 503 ∧
        offlineFallbackResponse.body = .offlineJson "Offline"
          "Sie sind offline. Bitte stellen Sie eine Internetverbindung her.") := by
  refine ⟨?_, ?_, ?_⟩
  · intro r hr; simp [handleApiRequest, hr]
  · intro c hc; simp [handleApiRequest, hc]
  · intro hnone; exact ⟨by simp [handleApiRequest, hnone], rfl, rfl⟩

/-- C3 (witness): an API-class request with no network and no cache gets
the synthetic 503 offline JSON. -/
theorem handleApiRequest_strategy_witness :
    handleApiRequest [] ⟨"/api/water-analysis", "GET", "cors"⟩ (Except.error ())
        = (offlineFallbackResponse, []) ∧ offlineFallbackResponse.status = 503 :=
  ⟨((handleApiRequest_strategy [] ⟨"/api/water-analysis", "GET", "cors"⟩
        (by decide)).2.2 rfl).1,
   ((handleApiRequest_strategy [] ⟨"/api/water-analysis", "GET", "cors"⟩
        (by decide)).2.2 rfl).2.1⟩

/-- C4 (counterexample): an entry whose age exactly equals the TTL
(`now - storedAt = cacheDuration ≥ cacheDuration`) is NOT evicted by the
sweep, because the source tests `now - value.timestamp > this.cacheDuration`
strictly — the claim's `>=` eviction bound fails at the boundary. -/
theorem cacheSweep_boundary_not_evicted :
    cacheDuration ≤ cacheDuration - 0 ∧
    cacheSweep cacheDuration [("analysis_10115", ⟨"p", 0⟩)]
      = [("analysis_10115", ⟨"p", 0⟩)] := by decide

/-- C4 (amended): the read path never serves an entry as fresh once its
age has reached the TTL (`memory_cache` results come only from entries
with `now - storedAt < cacheDuration`), and the sweep, scheduled every
60 s, evicts exactly the entries with `now - storedAt > cacheDuration`
(strictly greater; an entry aged exactly the TTL survives the sweep but
is still never served). -/
theorem cache_ttl_invariant (now : Nat) (c : MemCache) (env : FetchEnv)
    (st : FetchState) (plz : String) (fr : Bool) :
    (∀ kv : String × CacheEntry,
        kv ∈ cacheSweep now c ↔ kv ∈ c ∧ now - kv.2.timestamp ≤ cacheDuration) ∧
    (∀ d, (fetchWaterAnalysis env st plz fr).result = .success d .memory_cache →
        ∃ e, lookupKey st.cache ("analysis_" ++ plz) = some e ∧
          e.data = d ∧ env.now - e.timestamp < cacheDuration) ∧
    sweepInterval = 60000 := by
  refine ⟨?_, ?_, rfl⟩
  · intro kv
    simp [cacheSweep, List.mem_filter, Nat.not_lt]
  · intro d h
    exact (memLookup_some (memory_source_of_result h)).2

/-- C4 (witness): a fresh entry served as `memory_cache` indeed comes
from a held entry younger than the TTL. -/
theorem cache_ttl_invariant_witness :
    ∃ e, lookupKey [("analysis_10115", (⟨"p", 0⟩ : CacheEntry))]
          ("analysis_" ++ "10115") = some e ∧
        e.data = "p" ∧ (1000 : Nat) - e.timestamp < cacheDuration :=
  (cache_ttl_invariant 0 [] ⟨1000, 0, true, true, false, none, .error "x"⟩
      ⟨[("analysis_10115", ⟨"p", 0⟩)], []⟩ "10115" false).2.1 "p" (by decide)

/-- C5: `fetchWithRetry` makes at most `maxAttempts` attempts (3 by
default); the delays waited are exactly `1000 * 2 ^ i` after failed
attempt `i` for every attempt but the last (so `[1000, 2000]` for the
defaults); two failures followed by a success return the third
attempt's parsed result; and when every attempt fails, the last
attempt's error is propagated. -/
theorem fetchWithRetry_spec (att : Nat → AttemptOutcome) :
    (fetchWithRetry att).2.1 ≤ 3 ∧
    (∀ retries, (fetchWithRetry att retries).2.1 ≤ retries) ∧
    (∀ retries, (fetchWithRetry att retries).2.2
        = (List.range ((fetchWithRetry att retries).2.1 - 1)).map
            fun i => 1000 * 2 ^ i) ∧
    (∀ e0 e1 p, att 0 = .fail e0 → att 1 = .fail e1 → att 2 = .ok p →
        fetchWithRetry att 3 = (.ok p, 3, [1000, 2000])) ∧
    (∀ es : Nat → String, (∀ j, att j = .fail (es j)) →
        ∀ retries, 1 ≤ retries →
        fetchWithRetry att retries
          = (.err (es (retries - 1)), retries,
              (List.range (retries - 1)).map fun i => 1000 * 2 ^ i)) := by
  refine ⟨fwrGo_le att 3 0, fun r => fwrGo_le att r 0, ?_, ?_, ?_⟩
  · intro r
    have h := fwrGo_delays att r 0
    simpa [fetchWithRetry] using h
  · intro e0 e1 p h0 h1 h2
    have hlist : ((List.range (3 - 1)).map fun j => 1000 * 2 ^ (0 + j))
        = [1000, 2000] := by decide
    have h := fwrGo_succeeds_at att 3 0 p ?_ ?_ (by omega)
    · rw [fetchWithRetry, h, hlist]
    · intro j hj
      have hj2 : j < 2 := by omega
      interval_cases j
      · exact ⟨e0, h0⟩
      · exact ⟨e1, h1⟩
    · exact h2
  · intro es hAll r hr
    have h := fwrGo_all_fail att es hAll r 0 hr
    simpa [fetchWithRetry] using h

/-- C5 (witness): a concrete attempt sequence failing twice then
succeeding returns the third attempt's result after delays 1 s and 2 s. -/
theorem fetchWithRetry_spec_witness :
    fetchWithRetry
        (fun n => if n = 0 then .fail "a" else if n = 1 then .fail "b" else .ok "p") 3
      = (.ok "p", 3, [1000, 2000]) :=
  (fetchWithRetry_spec
      (fun n => if n = 0 then .fail "a" else if n = 1 then .fail "b" else .ok "p")).2.2.2.1
    "a" "b" "p" rfl rfl rfl

/-- C6 (code bug): on a static-asset cache hit the source executes
`event.waitUntil(updateCache(request, cache))`, but `event` is unbound
inside `handleStaticRequest` (worker global scopes have no `event`), so
the handler throws a `ReferenceError` and its promise rejects — the
cached copy is never returned and the background revalidation never
runs (the cache is unchanged). -/
theorem handleStaticRequest_cache_hit_reference_error :
    handleStaticRequest [("/styles/main.css", ⟨200, .content "cached-css"⟩)]
        ⟨"/styles/main.css", "GET", "no-cors"⟩ (.ok ⟨200, .content "fresh-css"⟩)
      = (.refErr "event", [("/styles/main.css", ⟨200, .content "cached-css"⟩)]) ∧
    classify ⟨"/styles/main.css", "GET", "no-cors"⟩ = .staticAsset := by decide

/-- C7 (code bug): the GET request for `/about.html` matches no API
pattern and is not an element of the precache manifest, yet the fetch
listener classifies it as a static asset — the manifest entry `"/"` is
tested with `url.pathname.includes(...)` and is a substring of every
pathname, so the network-first branch is unreachable; moreover the
offline page `/offline.html` is not in the precache manifest, so the
navigation fallback `caches.match(OFFLINE_URL)` of `handleNetworkFirst`
has nothing to serve. -/
theorem fetch_router_static_class_swallows_all :
    API_CACHE_PATTERNS.any (fun pattern => jsIncludes "/about.html" pattern) = false ∧
    PRECACHE_ASSETS.contains "/about.html" = false ∧
    classify ⟨"/about.html", "GET", "navigate"⟩ = .staticAsset ∧
    PRECACHE_ASSETS.contains OFFLINE_URL = false ∧
    handleNetworkFirst [] ⟨"/about.html", "GET", "navigate"⟩ (.error ())
      = .undefinedResp := by decide

/-- C8: a successful persistent write stores the record `{plz, data,
timestamp}`; reading the same key strictly within the 7-day window
returns the same payload, and reading at or beyond the window returns
absent — in both cases the store is returned unchanged (the read
deletes nothing) and the record is still present. -/
theorem offline_store_roundtrip (store : OfflineStore) (plz : String)
    (d : Payload) (now t2 : Nat) :
    saveOfflineData true none store plz d now = .ok (upsert store plz ⟨d, now⟩) ∧
    (t2 - now < maxOfflineAge →
      getOfflineData true false (upsert store plz ⟨d, now⟩) plz t2
        = (some d, upsert store plz ⟨d, now⟩)) ∧
    (maxOfflineAge ≤ t2 - now →
      getOfflineData true false (upsert store plz ⟨d, now⟩) plz t2
        = (none, upsert store plz ⟨d, now⟩)) ∧
    lookupKey (upsert store plz ⟨d, now⟩) plz = some ⟨d, now⟩ := by
  refine ⟨rfl, ?_, ?_, lookupKey_upsert _ _ _⟩
  · intro h
    simp [getOfflineData, lookupKey_upsert, h]
  · intro h
    simp only [getOfflineData, lookupKey_upsert]
    rw [if_neg (by omega : ¬ t2 - now < maxOfflineAge)]
    simp

/-- C8 (witness): saving then reading one millisecond later returns the
payload and leaves the record in place. -/
theorem offline_store_roundtrip_witness :
    getOfflineData true false (upsert [] "10115" ⟨"payload", 0⟩) "10115" 1
      = (some "payload", upsert [] "10115" ⟨"payload", 0⟩) :=
  (offline_store_roundtrip [] "10115" "payload" 0 1).2.1 (by decide)

/-- C9: the fallback data generator is deterministic — its source body
reads neither the clock nor the random state (nor any other ambient
state the subsystem observes), so two invocations under arbitrary
worlds with the same key produce identical output fields. -/
theorem getFallbackData_deterministic (plz : String) (w₁ w₂ : World) :
    getFallbackData w₁ plz = getFallbackData w₂ plz := rfl

/-- C10: after every `bufferAnalytics` call the stored list holds at
most 50 events, is a suffix of the previous buffer with the new event
appended (so exactly the most recent events survive, in order), and
once the buffer is full it holds exactly 50. -/
theorem bufferAnalytics_bounded (buffer : List AnalyticsEvent)
    (event : AnalyticsEvent) :
    (bufferAnalytics buffer event).length ≤ 50 ∧
    bufferAnalytics buffer event <:+ buffer ++ [event] ∧
    (50 ≤ buffer.length → (bufferAnalytics buffer event).length = 50) := by
  refine ⟨?_, ?_, ?_⟩
  · simp only [bufferAnalytics, List.length_drop]
    omega
  · simp only [bufferAnalytics]
    exact List.drop_suffix _ _
  · intro h
    simp only [bufferAnalytics, List.length_drop, List.length_append,
      List.length_cons]
    omega

/-- C10 (witness): appending to a full buffer of 50 keeps exactly 50. -/
theorem bufferAnalytics_bounded_witness :
    (bufferAnalytics (List.replicate 50 "e") "x").length = 50 :=
  (bufferAnalytics_bounded (List.replicate 50 "e") "x").2.2 (by simp)

end WaterFilter
